import Mathlib

/-!
# Verification of the PuTTY_Lite web SSH terminal bridge

Shallow embedding of `src/my_package/server.py`: the `SSHSession` transport
(connect / resize / read / write / close over a paramiko client and shell
channel) and the `terminal_websocket` dispatch loop (connect / input / resize
messages, relay of shell output, teardown in the `finally` block).

Python-level exceptions of the underlying paramiko primitives are modelled by
explicit boolean environment flags (`raises`), and the nondeterministic outcome
of a network connect attempt by an explicit `ConnectOutcome` argument; the
embedded functions are otherwise direct transcriptions of the Python code.
Bytes are naturals (the values that occur are < 256); terminal dimensions are
`Int` because JSON integers may be negative.
-/

set_option linter.unusedVariables false

namespace PuTTYLite

/-- A byte of I/O data, as a natural number. -/
abbrev Byte := Nat

/-- Host-key policies of the paramiko client. `paramiko.SSHClient` defaults to
rejecting unknown host keys; `server.py` line 48 installs
`paramiko.AutoAddPolicy()` (accept and remember any host key). -/
inductive HostKeyPolicy where
  | rejectPolicy
  | autoAddPolicy
deriving DecidableEq, Repr

/-- The interactive shell channel obtained from `invoke_shell` (lines 61-66).
`pending` are the bytes buffered for reading on the channel, `sent` the bytes
delivered to the remote side by `send`. -/
structure Channel where
  termWidth : Int
  termHeight : Int
  blocking : Bool
  pending : List Byte
  sent : List Byte
deriving DecidableEq, Repr

/-- The paramiko `SSHClient` as far as the bridge observes it: its host-key
policy and, once `client.connect` succeeded, the (host, port, username) it is
connected to. -/
structure SSHClient where
  hostKeyPolicy : HostKeyPolicy
  conn : Option (String × Int × String)
deriving DecidableEq, Repr

/-- `SSHSession.__init__` state (lines 33-36): an optional client, an optional
shell channel, and the `connected` liveness flag. -/
structure SSHSession where
  client : Option SSHClient
  channel : Option Channel
  connected : Bool
deriving DecidableEq, Repr

/-- The freshly constructed session: `client = None`, `channel = None`,
`connected = False`. -/
def SSHSession.init : SSHSession :=
  { client := none, channel := none, connected := false }

/-- How a connect attempt turns out, mirroring the `except` arms of
`SSHSession.connect` (lines 71-76): success, `paramiko.AuthenticationException`,
`paramiko.SSHException`, or any other exception. -/
inductive ConnectOutcome where
  | ok
  | authFail
  | sshFail (msg : String)
  | otherFail (msg : String)
deriving DecidableEq, Repr

/-- `SSHSession.connect` (lines 38-76). A fresh `SSHClient` is created and its
missing-host-key policy set to auto-add before the network connect is
attempted, so the fresh client is stored even on failure. On success an
interactive shell channel is opened with width 80 and height 24 and then set
non-blocking, and `connected` is set. On each failure arm the channel and the
`connected` flag are left untouched and the corresponding message is returned.
(An `SSHException` escaping `invoke_shell` after a successful network connect
lands in the same `sshFail` arm and likewise leaves the channel untouched.)
Returns the updated session and the `(success, message)` pair. -/
def SSHSession.connect (s : SSHSession) (host : String) (port : Int)
    (username : String) (password : String) (outcome : ConnectOutcome) :
    SSHSession × Bool × String :=
  let freshClient : SSHClient := { hostKeyPolicy := .autoAddPolicy, conn := none }
  match outcome with
  | .ok =>
      let connectedClient : SSHClient := { freshClient with conn := some (host, port, username) }
      let shell : Channel :=
        { termWidth := 80, termHeight := 24, blocking := true, pending := [], sent := [] }
      let shell' : Channel := { shell with blocking := false }
      ({ client := some connectedClient, channel := some shell', connected := true },
       true, "Connected")
  | .authFail =>
      ({ s with client := some freshClient }, false,
       "Authentication failed - check username/password")
  | .sshFail m =>
      ({ s with client := some freshClient }, false, "SSH error: " ++ m)
  | .otherFail m =>
      ({ s with client := some freshClient }, false, "Connection failed: " ++ m)

/-- `SSHSession.resize` (lines 78-84): if a channel is held, call
`resize_pty(width, height)`, swallowing any exception (`raises` true models the
`except: pass` arm); with no channel it is a no-op. -/
def SSHSession.resize (s : SSHSession) (width height : Int) (raises : Bool) : SSHSession :=
  match s.channel with
  | none => s
  | some ch =>
      if raises then s
      else { s with channel := some { ch with termWidth := width, termHeight := height } }

/-- `channel.recv_ready()`: true iff data is buffered on the channel. -/
def Channel.recv_ready (ch : Channel) : Bool :=
  !ch.pending.isEmpty

/-- `channel.recv(nbytes)`: deliver at most `nbytes` buffered bytes and consume
them from the buffer. -/
def Channel.recv (ch : Channel) (nbytes : Nat) : List Byte × Channel :=
  (ch.pending.take nbytes, { ch with pending := ch.pending.drop nbytes })

/-- The primitive channel calls a `read` performs, recorded so that the
non-blocking discipline (`recv_ready` checked before `recv`) is observable. -/
inductive ChannelPrim where
  | readyCheck (result : Bool)
  | recvCall (nbytes : Nat)
deriving DecidableEq, Repr

/-- `SSHSession.read` (lines 86-95): with no channel, return `b""`; otherwise
check `recv_ready()` and only then `recv(4096)`; any exception from the
primitives (modelled by `raises`) yields `b""`. Returns the bytes, the updated
session, and the trace of primitive channel calls performed. -/
def SSHSession.read (s : SSHSession) (raises : Bool) :
    List Byte × SSHSession × List ChannelPrim :=
  match s.channel with
  | none => ([], s, [])
  | some ch =>
      if raises then ([], s, [])
      else if ch.recv_ready then
        let (data, ch') := ch.recv 4096
        (data, { s with channel := some ch' }, [.readyCheck true, .recvCall 4096])
      else ([], s, [.readyCheck false])

/-- `SSHSession.write` (lines 97-103): if a channel is held, `channel.send(data)`,
swallowing any exception (`raises` models the `except: pass` arm — the data is
then silently dropped); with no channel it is a no-op. -/
def SSHSession.write (s : SSHSession) (data : List Byte) (raises : Bool) : SSHSession :=
  match s.channel with
  | none => s
  | some ch =>
      if raises then s
      else { s with channel := some { ch with sent := ch.sent ++ data } }

/-- `SSHSession.close` (lines 105-119): clear `connected`, close the channel and
the client (each in a `try`/`except: pass`, so exceptions from the underlying
close calls never change the resulting state), then null out both references.
The resulting state is the same no matter what the session held before. -/
def SSHSession.close (_s : SSHSession) : SSHSession :=
  { connected := false, channel := none, client := none }

/-- The session states reachable from construction by the session's own
operations (the only mutations the code performs). -/
inductive Reachable : SSHSession → Prop where
  | init : Reachable SSHSession.init
  | connect (s : SSHSession) (host : String) (port : Int) (username password : String)
      (outcome : ConnectOutcome) : Reachable s →
      Reachable (s.connect host port username password outcome).1
  | resize (s : SSHSession) (width height : Int) (raises : Bool) : Reachable s →
      Reachable (s.resize width height raises)
  | read (s : SSHSession) (raises : Bool) : Reachable s →
      Reachable (s.read raises).2.1
  | write (s : SSHSession) (data : List Byte) (raises : Bool) : Reachable s →
      Reachable (s.write data raises)
  | close (s : SSHSession) : Reachable s → Reachable s.close

/-! ## The websocket bridge (`terminal_websocket`, lines 128-201) -/

/-- UTF-8 encoding of one Unicode code point, as Python's `str.encode()`
produces it. -/
def utf8EncodeChar (n : Nat) : List Byte :=
  if n < 0x80 then [n]
  else if n < 0x800 then [0xC0 + n / 0x40, 0x80 + n % 0x40]
  else if n < 0x10000 then
    [0xE0 + n / 0x1000, 0x80 + n / 0x40 % 0x40, 0x80 + n % 0x40]
  else
    [0xF0 + n / 0x40000, 0x80 + n / 0x1000 % 0x40, 0x80 + n / 0x40 % 0x40, 0x80 + n % 0x40]

/-- Python's `str.encode()`: UTF-8 bytes of the string. -/
def utf8Encode (s : String) : List Byte :=
  (s.data.map fun c => utf8EncodeChar c.toNat).flatten

/-- Is `b` a UTF-8 continuation byte (`0x80..0xBF`)? -/
def isCont (b : Byte) : Bool :=
  0x80 ≤ b && b < 0xC0

/-- Valid second byte after a three-byte lead `b`: excludes overlong encodings
(after `0xE0`) and surrogates (after `0xED`). -/
def validSecond3 (b b2 : Byte) : Bool :=
  if b = 0xE0 then 0xA0 ≤ b2 && b2 < 0xC0
  else if b = 0xED then 0x80 ≤ b2 && b2 < 0xA0
  else isCont b2

/-- Valid second byte after a four-byte lead `b`: excludes overlong encodings
(after `0xF0`) and code points beyond `U+10FFFF` (after `0xF4`). -/
def validSecond4 (b b2 : Byte) : Bool :=
  if b = 0xF0 then 0x90 ≤ b2 && b2 < 0xC0
  else if b = 0xF4 then 0x80 ≤ b2 && b2 < 0x90
  else isCont b2

/-- One decoding step of the UTF-8 replacement decoder: given the first byte
`b` and the remaining bytes, return the code point produced (the decoded
scalar value, or `U+FFFD` for a maximal ill-formed subpart) and how many of
the remaining bytes were consumed in addition to `b`. -/
def utf8Step (b : Byte) (rest : List Byte) : Nat × Nat :=
  if b < 0x80 then (b, 0)
  else if b < 0xC2 then (0xFFFD, 0)
  else if b < 0xE0 then
    match rest with
    | [] => (0xFFFD, 0)
    | b2 :: _ =>
      if isCont b2 then ((b - 0xC0) * 0x40 + (b2 - 0x80), 1)
      else (0xFFFD, 0)
  else if b < 0xF0 then
    match rest with
    | [] => (0xFFFD, 0)
    | b2 :: rest2 =>
      if validSecond3 b b2 then
        match rest2 with
        | [] => (0xFFFD, 1)
        | b3 :: _ =>
          if isCont b3 then ((b - 0xE0) * 0x1000 + (b2 - 0x80) * 0x40 + (b3 - 0x80), 2)
          else (0xFFFD, 1)
      else (0xFFFD, 0)
  else if b < 0xF5 then
    match rest with
    | [] => (0xFFFD, 0)
    | b2 :: rest2 =>
      if validSecond4 b b2 then
        match rest2 with
        | [] => (0xFFFD, 1)
        | b3 :: rest3 =>
          if isCont b3 then
            match rest3 with
            | [] => (0xFFFD, 2)
            | b4 :: _ =>
              if isCont b4 then
                ((b - 0xF0) * 0x40000 + (b2 - 0x80) * 0x1000 + (b3 - 0x80) * 0x40 +
                    (b4 - 0x80), 3)
              else (0xFFFD, 2)
          else (0xFFFD, 1)
      else (0xFFFD, 0)
  else (0xFFFD, 0)

/-- Python's `bytes.decode('utf-8', errors='replace')` (line 155), modelled on
CPython's behaviour: well-formed sequences decode to their code point, and each
maximal ill-formed subpart is replaced by one `U+FFFD` replacement character.
Returns the decoded text as a list of code points. -/
def utf8DecodeReplace : List Byte → List Nat
  | [] => []
  | b :: rest =>
      (utf8Step b rest).1 :: utf8DecodeReplace (rest.drop (utf8Step b rest).2)
termination_by l => l.length
decreasing_by simp [List.length_drop]; omega

/-- The JSON fields of a `connect` message, each possibly absent
(`message.get(...)`, lines 169-172). -/
structure ConnectFields where
  host : Option String
  port : Option Int
  username : Option String
  password : Option String
deriving DecidableEq, Repr

/-- An inbound client message, dispatched on its `"type"` field (lines
165-192). A message whose type is none of `connect`/`input`/`resize` falls
through the `if`/`elif` chain and is ignored. -/
inductive ClientMsg where
  | connectMsg (f : ConnectFields)
  | inputMsg (data : Option String)
  | resizeMsg (cols rows : Option Int)
  | unknownMsg (t : String)
deriving DecidableEq, Repr

/-- A server-to-client JSON message (lines 137-139). `outputMsg` carries the
decoded text as a list of code points. -/
inductive ServerMsg where
  | connectedMsg
  | errorMsg (message : String)
  | outputMsg (data : List Nat)
deriving DecidableEq, Repr

/-- An invocation of one of the transport's operations, as observed at the
`SSHSession` method boundary. -/
inductive TransportCall where
  | connectCall (host : String) (port : Int) (username password : String)
  | writeCall (data : List Byte)
  | resizeCall (width height : Int)
  | closeCall
deriving DecidableEq, Repr

/-- One observable action of the websocket handler: a transport invocation, a
`send_json` to the client, or the `output_task.cancel()` in the `finally`
block. -/
inductive Action where
  | transport (c : TransportCall)
  | send (m : ServerMsg)
  | cancelRelay
deriving DecidableEq, Repr

/-- Per-message environment: the outcome of a connect attempt issued while
handling the message, and whether the underlying channel primitive raises
during a write/resize issued while handling it. -/
structure MsgEnv where
  outcome : ConnectOutcome
  raises : Bool
deriving DecidableEq, Repr

/-- One iteration of the dispatch loop body (lines 163-192): dispatch on the
message type, fill absent fields with their `message.get` defaults, invoke the
transport, and send any acknowledgement. Returns the updated session, the
updated "output task exists" flag, and the actions performed, in order. -/
def handleMessage (s : SSHSession) (relayStarted : Bool) (m : ClientMsg) (env : MsgEnv) :
    SSHSession × Bool × List Action :=
  match m with
  | .connectMsg f =>
      let host := f.host.getD "localhost"
      let port := f.port.getD 22
      let username := f.username.getD "pi"
      let password := f.password.getD ""
      let r := s.connect host port username password env.outcome
      if r.2.1 then
        (r.1, true,
         [.transport (.connectCall host port username password), .send .connectedMsg])
      else
        (r.1, relayStarted,
         [.transport (.connectCall host port username password), .send (.errorMsg r.2.2)])
  | .inputMsg d =>
      let data := utf8Encode (d.getD "")
      (s.write data env.raises, relayStarted, [.transport (.writeCall data)])
  | .resizeMsg cols rows =>
      let c := cols.getD 80
      let r := rows.getD 24
      (s.resize c r env.raises, relayStarted, [.transport (.resizeCall c r)])
  | .unknownMsg _ => (s, relayStarted, [])

/-- The dispatch loop (`while True`, lines 163-192) run over a finite list of
inbound messages; the list ending models the `receive_json` raising
(client disconnect or websocket error), which exits the loop. -/
def runMsgs (s : SSHSession) (relayStarted : Bool) :
    List (ClientMsg × MsgEnv) → SSHSession × Bool × List Action
  | [] => (s, relayStarted, [])
  | (m, env) :: rest =>
      let step := handleMessage s relayStarted m env
      let tail := runMsgs step.1 step.2.1 rest
      (tail.1, tail.2.1, step.2.2 ++ tail.2.2)

/-- The whole `terminal_websocket` handler (lines 129-201): a fresh session,
the dispatch loop over the inbound messages, then the `finally` block — cancel
the output task if one was created, then `ssh_session.close()`. -/
def runHandler (events : List (ClientMsg × MsgEnv)) : List Action :=
  let run := runMsgs SSHSession.init false events
  run.2.2 ++ (if run.2.1 then [Action.cancelRelay] else []) ++ [Action.transport .closeCall]

/-- One iteration of the relay loop `read_ssh_output` (lines 145-158) after a
chunk has been read: if the chunk is non-empty, send an `output` message whose
`data` is the chunk decoded as UTF-8 with replacement; an empty chunk sends
nothing. -/
def read_ssh_output_step (chunk : List Byte) : Option ServerMsg :=
  if chunk.isEmpty then none
  else some (.outputMsg (utf8DecodeReplace chunk))

/-- The write invocations in a trace, in order. -/
def writesOf (tr : List Action) : List (List Byte) :=
  tr.filterMap fun a =>
    match a with
    | .transport (.writeCall d) => some d
    | _ => none

/-- The payloads of the `input` messages of an event list, encoded as the
dispatch loop encodes them, in order. -/
def inputPayloads (events : List (ClientMsg × MsgEnv)) : List (List Byte) :=
  events.filterMap fun e =>
    match e.1 with
    | .inputMsg d => some (utf8Encode (d.getD ""))
    | _ => none

/-- Actions that belong to teardown: cancelling the relay task and closing the
transport. -/
def isTeardown : Action → Bool
  | .cancelRelay => true
  | .transport .closeCall => true
  | _ => false

/-- Does the handler trace close the session right after reporting an error?
True iff after every `error` message sent, only teardown actions follow. -/
def closesAfterError : List Action → Bool
  | [] => true
  | .send (.errorMsg _) :: rest => rest.all isTeardown && closesAfterError rest
  | _ :: rest => closesAfterError rest

/-! ## Helper lemmas -/

/-- No iteration of the dispatch loop body ever closes the transport or
cancels the output task: those actions occur only in the `finally` block. -/
lemma handleMessage_no_teardown (s : SSHSession) (r : Bool) (m : ClientMsg) (env : MsgEnv) :
    Action.transport .closeCall ∉ (handleMessage s r m env).2.2 ∧
    Action.cancelRelay ∉ (handleMessage s r m env).2.2 := by
  cases m with
  | connectMsg f =>
      simp only [handleMessage]
      split <;> simp
  | inputMsg d => simp [handleMessage]
  | resizeMsg cols rows => simp [handleMessage]
  | unknownMsg t => simp [handleMessage]

/-- The whole dispatch loop never closes the transport or cancels the output
task. -/
lemma runMsgs_no_teardown (s : SSHSession) (r : Bool) (events : List (ClientMsg × MsgEnv)) :
    Action.transport .closeCall ∉ (runMsgs s r events).2.2 ∧
    Action.cancelRelay ∉ (runMsgs s r events).2.2 := by
  induction events generalizing s r with
  | nil => simp [runMsgs]
  | cons e rest ih =>
      obtain ⟨hc, hr⟩ := handleMessage_no_teardown s r e.1 e.2
      obtain ⟨hc', hr'⟩ := ih (handleMessage s r e.1 e.2).1 (handleMessage s r e.1 e.2).2.1
      simp only [runMsgs, List.mem_append]
      exact ⟨fun h => h.elim (fun h1 => hc h1) (fun h2 => hc' h2),
             fun h => h.elim (fun h1 => hr h1) (fun h2 => hr' h2)⟩

/-- The write invocations a single dispatch iteration performs: exactly the
encoded payload for an `input` message, nothing for any other message. -/
lemma writesOf_handleMessage (s : SSHSession) (r : Bool) (m : ClientMsg) (env : MsgEnv) :
    writesOf (handleMessage s r m env).2.2
      = (match m with
         | .inputMsg d => [utf8Encode (d.getD "")]
         | _ => []) := by
  cases m with
  | connectMsg f =>
      simp only [handleMessage]
      split <;> simp [writesOf]
  | inputMsg d => simp [handleMessage, writesOf]
  | resizeMsg cols rows => simp [handleMessage, writesOf]
  | unknownMsg t => simp [handleMessage, writesOf]

/-- The dispatch loop's write invocations are exactly the `input` payloads, in
message order. -/
lemma writesOf_runMsgs (s : SSHSession) (r : Bool) (events : List (ClientMsg × MsgEnv)) :
    writesOf (runMsgs s r events).2.2 = inputPayloads events := by
  induction events generalizing s r with
  | nil => simp [runMsgs, writesOf, inputPayloads]
  | cons e rest ih =>
      simp only [runMsgs, writesOf, List.filterMap_append, inputPayloads, List.filterMap_cons]
      rw [show (List.filterMap _ (handleMessage s r e.1 e.2).2.2 : List (List Byte))
            = writesOf (handleMessage s r e.1 e.2).2.2 from rfl,
          writesOf_handleMessage,
          show (List.filterMap _ (runMsgs (handleMessage s r e.1 e.2).1
              (handleMessage s r e.1 e.2).2.1 rest).2.2 : List (List Byte))
            = writesOf (runMsgs (handleMessage s r e.1 e.2).1
                (handleMessage s r e.1 e.2).2.1 rest).2.2 from rfl,
          ih]
      cases hm : e.1 <;> simp [inputPayloads]

/-! ## Claims -/

/-- Claim C1, counterexample: the reference performs no clamping at all. The
inbound resize message `{cols: 0, rows: 0}` leads to the transport's resize
operation being invoked with exactly `(0, 0)` — forwarded as-is — and when a
channel is open those unclamped values are applied to the pty, while the claim
demands the invoked values be at least 1. -/
theorem c1_counterexample :
    (handleMessage SSHSession.init false (.resizeMsg (some 0) (some 0))
        ⟨.authFail, false⟩).2.2 = [Action.transport (.resizeCall 0 0)] ∧
    ((SSHSession.init.connect "localhost" 22 "pi" "" .ok).1.resize 0 0 false).channel
      = some { termWidth := 0, termHeight := 0, blocking := false,
               pending := [], sent := [] } ∧
    ¬ (1 : Int) ≤ 0 := by
  refine ⟨by simp [handleMessage, SSHSession.init, SSHSession.resize, SSHSession.connect], ?_, by decide⟩
  simp [SSHSession.connect, SSHSession.resize]

/-- Claim C1, amended: for every inbound resize message the transport's resize
operation is invoked with exactly the received cols/rows values — including
zero and negative values, which are forwarded verbatim (no clamping occurs);
missing fields default to cols 80 and rows 24. -/
theorem c1_resize_forwarded_verbatim (s : SSHSession) (r : Bool) (cols rows : Int)
    (env : MsgEnv) :
    (handleMessage s r (.resizeMsg (some cols) (some rows)) env).2.2
      = [Action.transport (.resizeCall cols rows)] ∧
    (handleMessage s r (.resizeMsg none none) env).2.2
      = [Action.transport (.resizeCall 80 24)] := by
  constructor <;> simp [handleMessage]

/-- Claim C2, counterexample: after a failed connect attempt the session does
not transition to Closed and the channel is not closed — the dispatch loop
keeps running. In the run [connect (auth failure), input "x"] the handler
sends exactly one error and no connected message, but then still processes the
following input message (a transport write occurs after the error was
reported), and the transport is closed only at handler exit. -/
theorem c2_counterexample :
    runHandler [(.connectMsg ⟨none, none, none, none⟩, ⟨.authFail, false⟩),
                (.inputMsg (some "x"), ⟨.authFail, false⟩)]
      = [.transport (.connectCall "localhost" 22 "pi" ""),
         .send (.errorMsg "Authentication failed - check username/password"),
         .transport (.writeCall [120]),
         .transport .closeCall] ∧
    closesAfterError
      (runHandler [(.connectMsg ⟨none, none, none, none⟩, ⟨.authFail, false⟩),
                   (.inputMsg (some "x"), ⟨.authFail, false⟩)]) = false := by
  constructor <;> rfl

/-- Claim C2, amended: for every connect attempt that fails, the client
receives exactly one error message with a human-readable reason — the
authentication-failure text when authentication failed — and no connected
message is sent for that attempt; however the session is not closed after the
error: the dispatch loop continues, and neither a transport close nor any
teardown happens while handling the failed attempt. -/
theorem c2_failed_connect_reports_once (s : SSHSession) (r : Bool) (f : ConnectFields)
    (env : MsgEnv) (hfail : env.outcome ≠ ConnectOutcome.ok) :
    ∃ m : String,
      (handleMessage s r (.connectMsg f) env).2.2
        = [Action.transport (.connectCall (f.host.getD "localhost") (f.port.getD 22)
             (f.username.getD "pi") (f.password.getD "")),
           Action.send (.errorMsg m)] ∧
      (env.outcome = ConnectOutcome.authFail →
        m = "Authentication failed - check username/password") ∧
      Action.send .connectedMsg ∉ (handleMessage s r (.connectMsg f) env).2.2 ∧
      Action.transport .closeCall ∉ (handleMessage s r (.connectMsg f) env).2.2 := by
  cases houtcome : env.outcome with
  | ok => exact absurd houtcome hfail
  | authFail =>
      exact ⟨"Authentication failed - check username/password",
        by simp [handleMessage, SSHSession.connect, houtcome],
        fun _ => rfl,
        by simp [handleMessage, SSHSession.connect, houtcome],
        by simp [handleMessage, SSHSession.connect, houtcome]⟩
  | sshFail msg =>
      exact ⟨"SSH error: " ++ msg,
        by simp [handleMessage, SSHSession.connect, houtcome],
        by simp [houtcome],
        by simp [handleMessage, SSHSession.connect, houtcome],
        by simp [handleMessage, SSHSession.connect, houtcome]⟩
  | otherFail msg =>
      exact ⟨"Connection failed: " ++ msg,
        by simp [handleMessage, SSHSession.connect, houtcome],
        by simp [houtcome],
        by simp [handleMessage, SSHSession.connect, houtcome],
        by simp [handleMessage, SSHSession.connect, houtcome]⟩

/-- Witness for the amended C2 theorem at a concrete failed-auth connect. -/
theorem c2_witness :
    (MsgEnv.mk .authFail false).outcome ≠ ConnectOutcome.ok ∧
    (∃ m : String,
      (handleMessage SSHSession.init false
          (.connectMsg ⟨some "host", some 22, some "user", some "wrongpass"⟩)
          ⟨.authFail, false⟩).2.2
        = [Action.transport (.connectCall "host" 22 "user" "wrongpass"),
           Action.send (.errorMsg m)] ∧
      ((MsgEnv.mk .authFail false).outcome = ConnectOutcome.authFail →
        m = "Authentication failed - check username/password") ∧
      Action.send .connectedMsg ∉ (handleMessage SSHSession.init false
          (.connectMsg ⟨some "host", some 22, some "user", some "wrongpass"⟩)
          ⟨.authFail, false⟩).2.2 ∧
      Action.transport .closeCall ∉ (handleMessage SSHSession.init false
          (.connectMsg ⟨some "host", some 22, some "user", some "wrongpass"⟩)
          ⟨.authFail, false⟩).2.2) :=
  ⟨by decide,
   c2_failed_connect_reports_once SSHSession.init false
     ⟨some "host", some 22, some "user", some "wrongpass"⟩ ⟨.authFail, false⟩ (by decide)⟩

/-- Claim C3: in every reachable session state, the `connected` liveness flag
is true iff the shell channel handle is held (and every held channel is open,
since `close` both closes and clears it): false before connect and after
close, true exactly while a channel is held. -/
theorem c3_liveness_iff_channel (s : SSHSession) (h : Reachable s) :
    s.connected = true ↔ s.channel.isSome = true := by
  induction h with
  | init => simp [SSHSession.init]
  | connect s host port username password outcome hr ih =>
      cases outcome with
      | ok => simp [SSHSession.connect]
      | authFail => simpa [SSHSession.connect] using ih
      | sshFail m => simpa [SSHSession.connect] using ih
      | otherFail m => simpa [SSHSession.connect] using ih
  | resize s width height raises hr ih =>
      cases hch : s.channel with
      | none => simpa [SSHSession.resize, hch] using ih
      | some ch =>
          cases raises <;> simp [SSHSession.resize, hch] <;> simpa [hch] using ih
  | read s raises hr ih =>
      cases hch : s.channel with
      | none => simpa [SSHSession.read, hch] using ih
      | some ch =>
          cases raises with
          | true => simpa [SSHSession.read, hch] using ih
          | false =>
              by_cases hready : ch.recv_ready
              · simpa [SSHSession.read, hch, hready, Channel.recv] using ih
              · simpa [SSHSession.read, hch, hready] using ih
  | write s data raises hr ih =>
      cases hch : s.channel with
      | none => simpa [SSHSession.write, hch] using ih
      | some ch =>
          cases raises <;> simp [SSHSession.write, hch] <;> simpa [hch] using ih
  | close s hr => simp [SSHSession.close]

/-- Witness for C3 at the state reached by a successful connect. -/
theorem c3_witness :
    Reachable (SSHSession.init.connect "localhost" 22 "pi" "" .ok).1 ∧
    ((SSHSession.init.connect "localhost" 22 "pi" "" .ok).1.connected = true ↔
      (SSHSession.init.connect "localhost" 22 "pi" "" .ok).1.channel.isSome = true) :=
  ⟨Reachable.connect SSHSession.init "localhost" 22 "pi" "" .ok Reachable.init,
   c3_liveness_iff_channel _
     (Reachable.connect SSHSession.init "localhost" 22 "pi" "" .ok Reachable.init)⟩

/-- Claim C4: the steady-state I/O operations are total and non-raising on
every state and input — `read` returns at most 4096 bytes; it returns empty
and leaves the state unchanged when no channel is held, when the underlying
primitive raises, or when no data is buffered; `write` silently drops (state
unchanged) when no channel is held or the send raises; `resize` is a no-op
when no channel is held. -/
theorem c4_io_total_nonraising (s : SSHSession) (ch : Channel) (data : List Byte)
    (width height : Int) (raises : Bool) :
    (s.read raises).1.length ≤ 4096 ∧
    ({ s with channel := none } : SSHSession).read raises
      = ([], { s with channel := none }, []) ∧
    s.read true = ([], s, []) ∧
    ({ s with channel := some { ch with pending := [] } } : SSHSession).read false
      = ([], { s with channel := some { ch with pending := [] } }, [.readyCheck false]) ∧
    ({ s with channel := none } : SSHSession).write data raises
      = { s with channel := none } ∧
    s.write data true = s ∧
    ({ s with channel := none } : SSHSession).resize width height raises
      = { s with channel := none } := by
  refine ⟨?_, ?_, ?_, ?_, ?_, ?_, ?_⟩
  · cases hch : s.channel with
    | none => simp [SSHSession.read, hch]
    | some c =>
        cases raises with
        | true => simp [SSHSession.read, hch]
        | false =>
            by_cases hready : c.recv_ready
            · simp only [SSHSession.read, hch, hready, if_true, if_false, Bool.false_eq_true,
                ite_false, Channel.recv]
              exact le_trans (List.length_take_le 4096 c.pending) (le_refl 4096)
            · simp [SSHSession.read, hch, hready]
  · simp [SSHSession.read]
  · cases hch : s.channel with
    | none => simp [SSHSession.read, hch]
    | some c => simp [SSHSession.read, hch]
  · simp [SSHSession.read, Channel.recv_ready]
  · simp [SSHSession.write]
  · cases hch : s.channel with
    | none => simp [SSHSession.write, hch]
    | some c => simp [SSHSession.write, hch]
  · simp [SSHSession.resize]

/-- Claim C5: closing the transport is idempotent — a second (or any later)
`close` leaves the state exactly as the first left it, no error occurs, and
after any `close` the channel and client references are cleared and the
liveness flag is false. -/
theorem c5_close_idempotent (s : SSHSession) :
    s.close.close = s.close ∧
    s.close.channel = none ∧
    s.close.client = none ∧
    s.close.connected = false := by
  simp [SSHSession.close]

/-- Claim C6: for every run of the handler, whatever messages arrive and
however the dispatch loop exits, the trace ends with teardown in order — the
output-reading task is cancelled first (when one was started), then the
transport's close operation is invoked; close is invoked exactly once per
session and never during message dispatch. -/
theorem c6_teardown_order (events : List (ClientMsg × MsgEnv)) :
    (∃ body, ∃ relayWasStarted : Bool,
      runHandler events
        = body ++ (if relayWasStarted then [Action.cancelRelay] else []) ++
            [Action.transport .closeCall] ∧
      Action.transport .closeCall ∉ body ∧ Action.cancelRelay ∉ body) ∧
    (runHandler events).count (Action.transport .closeCall) = 1 := by
  obtain ⟨hc, hr⟩ := runMsgs_no_teardown SSHSession.init false events
  constructor
  · exact ⟨(runMsgs SSHSession.init false events).2.2,
      (runMsgs SSHSession.init false events).2.1, rfl, hc, hr⟩
  · have hbody : (runMsgs SSHSession.init false events).2.2.count
        (Action.transport .closeCall) = 0 := List.count_eq_zero.2 hc
    cases hflag : (runMsgs SSHSession.init false events).2.1 <;>
      simp [runHandler, hflag, List.count_append, hbody, List.count_cons, List.count_nil]

/-- Claim C7: across every run of the handler, the chunks passed to the
transport's write operation are exactly the encoded payloads of the `input`
messages, in the order the messages were received (so their concatenation is
byte-for-byte the concatenation of the payloads, with no reordering or
merging); handling an `input` message performs only the write — no
acknowledgement is sent. -/
theorem c7_input_ordered_no_ack (events : List (ClientMsg × MsgEnv)) (s : SSHSession)
    (r : Bool) (d : Option String) (env : MsgEnv) :
    writesOf (runHandler events) = inputPayloads events ∧
    (writesOf (runHandler events)).flatten = (inputPayloads events).flatten ∧
    (handleMessage s r (.inputMsg d) env).2.2
      = [Action.transport (.writeCall (utf8Encode (d.getD "")))] := by
  have hmain : writesOf (runHandler events) = inputPayloads events := by
    have hbody := writesOf_runMsgs SSHSession.init false events
    cases hflag : (runMsgs SSHSession.init false events).2.1 <;>
      simp only [runHandler, hflag, if_true, if_false, writesOf, List.filterMap_append] <;>
      simpa [writesOf] using hbody
  exact ⟨hmain, by rw [hmain], by simp [handleMessage]⟩

/-- Claim C8: a successful connect installs the accept-any-host-key policy on
the client, opens the interactive shell channel with initial size 80×24 and
sets it non-blocking; and every `read` that reaches the channel's receive
primitive has first checked the data-ready predicate and seen it positive (the
only possible primitive-call traces of a read are the empty trace, a negative
ready check, and a positive ready check followed by `recv 4096`). -/
theorem c8_connect_config_and_ready_check (s : SSHSession) (host : String) (port : Int)
    (username password : String) (raises : Bool) :
    (s.connect host port username password .ok).1.client.map SSHClient.hostKeyPolicy
      = some .autoAddPolicy ∧
    (s.connect host port username password .ok).1.channel
      = some { termWidth := 80, termHeight := 24, blocking := false,
               pending := [], sent := [] } ∧
    ((s.read raises).2.2 = [] ∨ (s.read raises).2.2 = [.readyCheck false] ∨
      (s.read raises).2.2 = [.readyCheck true, .recvCall 4096]) := by
  refine ⟨by simp [SSHSession.connect], by simp [SSHSession.connect], ?_⟩
  cases hch : s.channel with
  | none => simp [SSHSession.read, hch]
  | some ch =>
      cases raises with
      | true => simp [SSHSession.read, hch]
      | false =>
          by_cases hready : ch.recv_ready
          · simp [SSHSession.read, hch, hready, Channel.recv]
          · simp [SSHSession.read, hch, hready]

/-- Claim C9: for every non-empty chunk the relay loop reads, it sends the
client an `output` message whose data is the chunk decoded as UTF-8 with
invalid sequences replaced by `U+FFFD` (and nothing for an empty chunk); the
decoder really is UTF-8 with replacement — it inverts UTF-8 encoding on valid
text and maps the invalid byte `0xFF` to the replacement character, so invalid
shell output is not delivered byte-for-byte. -/
theorem c9_output_utf8_replace (chunk : List Byte) :
    read_ssh_output_step chunk
      = (if chunk.isEmpty then none
         else some (.outputMsg (utf8DecodeReplace chunk))) ∧
    utf8DecodeReplace [255, 104, 105] = [0xFFFD, 104, 105] ∧
    utf8DecodeReplace [255, 104, 105] ≠ [255, 104, 105] ∧
    utf8DecodeReplace (utf8Encode "héllo ✓") = "héllo ✓".data.map Char.toNat := by
  refine ⟨rfl, ?_, ?_, ?_⟩
  · simp [utf8DecodeReplace, utf8Step]
  · simp [utf8DecodeReplace, utf8Step]
  · simp [utf8Encode, utf8DecodeReplace, utf8Step, utf8EncodeChar, isCont,
      validSecond3, validSecond4]

/-- Claim C10: handling an inbound connect message fills the absent fields
with their defaults before invoking the transport's connect operation — host
`"localhost"`, port 22, username `"pi"`, password `""` — and the connect
invocation is the first action of the handling. -/
theorem c10_connect_defaults (s : SSHSession) (r : Bool) (f : ConnectFields)
    (env : MsgEnv) :
    (∃ rest, (handleMessage s r (.connectMsg f) env).2.2
        = Action.transport (.connectCall (f.host.getD "localhost") (f.port.getD 22)
            (f.username.getD "pi") (f.password.getD "")) :: rest) ∧
    (handleMessage s r (.connectMsg ⟨none, none, none, none⟩) env).2.2.head?
      = some (Action.transport (.connectCall "localhost" 22 "pi" "")) := by
  constructor
  · simp only [handleMessage]
    split
    · exact ⟨[Action.send .connectedMsg], rfl⟩
    · exact ⟨[Action.send (.errorMsg (s.connect (f.host.getD "localhost") (f.port.getD 22)
        (f.username.getD "pi") (f.password.getD "") env.outcome).2.2)], rfl⟩
  · simp only [handleMessage]
    split <;> rfl

end PuTTYLite
